import Mathlib

/-!
Shallow embedding of the Blender UV texture streamer
(src/Textuv-tesxture-stream.py).

The streamer captures a raster image surface and pipes quantized RGBA
frames into an external ffmpeg process.  We model:

* the per-sample quantization `(px * 255.0).clip(0, 255).astype(np.uint8)`;
* the `TextureStreamer` state (`proc`, `running`, `last_error`,
  `last_send_time`, `frames_sent`);
* the operations `start`, `stop`, `stream` (the timer tick) and
  `status_text`, with the environment (image lookup, ffmpeg availability,
  spawn success, wall clock, write success) passed in explicitly;
* a transition system (`World`, `Event`, `stepWorld`, `Reachable`) that
  also tracks the bytes written to the encoder's stdin and lets the
  external process exit on its own between ticks.

Pixel samples are modelled as rationals, timestamps as rationals.
-/

namespace TextureStream

/-- Constant `IMAGE_NAME` from the script. -/
def IMAGE_NAME : String := "PaintTexture"

/-- Constant `STREAM_FPS` from the script. -/
def STREAM_FPS : Nat := 15

/-- Constant `FFMPEG_BIN` from the script. -/
def FFMPEG_BIN : String := "ffmpeg"

/-- Constant `KEEPALIVE_SECONDS` from the script. -/
def KEEPALIVE_SECONDS : ℚ := 1

/-- A Blender image as the script consumes it: size, dirty flag, and the
flat float pixel sequence (`img.pixels`, length `W*H*4` for a `W×H` RGBA
image). -/
structure Image where
  width : Nat
  height : Nat
  is_dirty : Bool
  pixels : List ℚ
deriving DecidableEq

/-- The spawned ffmpeg process handle: whether it is still running
(`poll() is None`) and whether its stdin pipe object is present/open. -/
structure Proc where
  alive : Bool
  stdinOpen : Bool
deriving DecidableEq

/-- The mutable fields of class `TextureStreamer`. -/
structure Streamer where
  proc : Option Proc
  running : Bool
  last_error : String
  last_send_time : ℚ
  frames_sent : Nat
deriving DecidableEq

/-- State built by `TextureStreamer.__init__`. -/
def initStreamer : Streamer :=
  { proc := none, running := false, last_error := "", last_send_time := 0,
    frames_sent := 0 }

/-- Method `TextureStreamer._set_error` (the print is I/O only). -/
def set_error (st : Streamer) (msg : String) : Streamer :=
  { st with last_error := msg }

/-- One sample of line 135, `(px * 255.0).clip(0, 255).astype(np.uint8)`:
scale by 255, clip into `[0, 255]`, then truncate to an unsigned byte
(`astype(np.uint8)` truncates toward zero; the clipped value is
nonnegative, so this is the floor). -/
def quantizeSample (s : ℚ) : Nat :=
  (Int.floor (min (max (s * 255) 0) 255)).toNat

/-- Lines 134–135: the byte frame produced from the image's pixel
sequence. -/
def frameOfPixels (px : List ℚ) : List Nat :=
  px.map quantizeSample

/-- Modelled from the spec's words, for comparison with `quantizeSample`:
`byte = round(clamp(sample,0,1) * 255)`. -/
def specQuantizeSample (s : ℚ) : Nat :=
  (round (min (max s 0) 1 * 255)).toNat

/-- Method `TextureStreamer.status_text`. -/
def status_text (st : Streamer) : String :=
  if st.last_error ≠ "" then "Error"
  else if st.running then "Streaming" else "Stopped"

/-- Environment consulted by `start`: the result of
`bpy.data.images.get(IMAGE_NAME)`, of `shutil.which("ffmpeg")`, and
whether `subprocess.Popen` succeeds. -/
structure StartEnv where
  img : Option Image
  ffmpegFound : Bool
  spawnOk : Bool

/-- Lines 39–41 of `start`: reset error, frame counter and send
timestamp. -/
def resetSession (st : Streamer) : Streamer :=
  { st with last_error := "", frames_sent := 0, last_send_time := 0 }

/-- Lines 43–87 of `start`: validation, spawn and transition to
running, applied to the already-reset state. -/
def startBody (st : Streamer) (env : StartEnv) : Streamer :=
  match env.img with
  | none => set_error st ("Image not found: " ++ IMAGE_NAME)
  | some img =>
    if img.width = 0 ∨ img.height = 0 then
      set_error st
        ("Invalid image size: " ++ toString img.width ++ "x" ++ toString img.height)
    else if FFMPEG_BIN = "ffmpeg" ∧ env.ffmpegFound = false then
      set_error st "ffmpeg not found in PATH. Set FFMPEG_BIN to an absolute path, e.g. /usr/bin/ffmpeg"
    else if env.spawnOk = false then
      set_error { st with proc := none } "Failed to start ffmpeg: spawn raised"
    else
      { st with proc := some { alive := true, stdinOpen := true },
                running := true }

/-- Method `TextureStreamer.start` (lines 35–87).  Timer registration is
implicit: ticks are modelled as separate `stream` calls. -/
def start (st : Streamer) (env : StartEnv) : Streamer :=
  if st.running then st
  else startBody (resetSession st) env

/-- Method `TextureStreamer.stop` (lines 89–107).  Closing stdin and
terminating the process are external effects; teardown exceptions are
swallowed by the source, so the state outcome is deterministic. -/
def stop (st : Streamer) : Streamer :=
  if st.running = false then st
  else
    match st.proc with
    | none => { st with running := false }
    | some _ => { st with running := false, proc := none }

/-- Environment consulted by one `stream` tick: the image lookup,
`time.time()`, and whether `proc.stdin.write` succeeds (it raises e.g.
`BrokenPipeError` when the pipe is gone). -/
structure TickEnv where
  img : Option Image
  now : ℚ
  writeOk : Bool

/-- Value `1.0 / STREAM_FPS` (line 125). -/
def period : ℚ := 1 / (STREAM_FPS : ℚ)

/-- Result of one `stream` tick: the new state, the timer return value
(`none` = stop ticking, `some d` = run again after `d` seconds), the
bytes written to ffmpeg's stdin during the tick, and whether
`img.pixels` was read/converted. -/
structure TickOut where
  st : Streamer
  ret : Option ℚ
  written : List Nat
  readPixels : Bool
deriving DecidableEq

/-- Line 113's guard `self.proc and (self.proc.poll() is not None)`. -/
def procExitedPoll (st : Streamer) : Bool :=
  match st.proc with
  | some p => !p.alive
  | none => false

/-- Line 130's `should_send` expression: `bool(img.is_dirty) or
(now - self.last_send_time) > KEEPALIVE_SECONDS`. -/
def shouldSend (st : Streamer) (img : Image) (now : ℚ) : Bool :=
  img.is_dirty || decide (now - st.last_send_time > KEEPALIVE_SECONDS)

/-- Method `TextureStreamer.stream` (lines 109–150), the timer tick. -/
def stream (st : Streamer) (env : TickEnv) : TickOut :=
  if st.running = false then
    { st := st, ret := none, written := [], readPixels := false }
  else if procExitedPoll st then
    { st := stop (set_error st "ffmpeg exited unexpectedly."),
      ret := none, written := [], readPixels := false }
  else
    match env.img with
    | none =>
      { st := stop (set_error st ("Image missing: " ++ IMAGE_NAME)),
        ret := none, written := [], readPixels := false }
    | some img =>
      if shouldSend st img env.now = false then
        { st := st, ret := some period, written := [], readPixels := false }
      else
        match st.proc with
        | none =>
          { st := stop (set_error st "ffmpeg process not available."),
            ret := none, written := [], readPixels := true }
        | some p =>
          if p.stdinOpen = false then
            { st := stop (set_error st "ffmpeg process not available."),
              ret := none, written := [], readPixels := true }
          else if env.writeOk then
            { st := { st with last_send_time := env.now,
                              frames_sent := st.frames_sent + 1 },
              ret := some period, written := frameOfPixels img.pixels,
              readPixels := true }
          else
            { st := stop (set_error st "Write failed: write raised"),
              ret := none, written := [], readPixels := true }

/-- A streaming world: the streamer plus the cumulative bytes written to
the current encoder process's stdin. -/
structure World where
  st : Streamer
  sink : List Nat

/-- The world before any operator action. -/
def initWorld : World := { st := initStreamer, sink := [] }

/-- The events a world can undergo: operator `start`/`stop`, a timer
tick, and the external encoder process exiting on its own. -/
inductive Event where
  | start (env : StartEnv)
  | stop
  | tick (env : TickEnv)
  | procExit

/-- One step of the world.  A successful `start` spawns a fresh process,
so the byte sink of that process starts empty; `procExit` flips the
process to exited without the streamer noticing. -/
def stepWorld (w : World) : Event → World
  | .start env =>
    let st2 := start w.st env
    if w.st.running = false ∧ st2.running = true then { st := st2, sink := [] }
    else { st := st2, sink := w.sink }
  | .stop => { st := stop w.st, sink := w.sink }
  | .tick env =>
    let out := stream w.st env
    { st := out.st, sink := w.sink ++ out.written }
  | .procExit =>
    { st := { w.st with proc := w.st.proc.map (fun p => { p with alive := false }) },
      sink := w.sink }

/-- Worlds reachable from the initial world by any event sequence. -/
inductive Reachable : World → Prop where
  | init : Reachable initWorld
  | step (w : World) (e : Event) : Reachable w → Reachable (stepWorld w e)

/-- Run a list of events left to right. -/
def runEvents (w : World) (evs : List Event) : World :=
  evs.foldl stepWorld w

/-- A 1×1 image whose four samples exercise the clamp (in-range, zero,
one, above one). -/
def exampleImg : Image :=
  { width := 1, height := 1, is_dirty := false, pixels := [1/2, 0, 1, 2] }

/-- A start environment in which everything succeeds. -/
def goodStartEnv : StartEnv :=
  { img := some exampleImg, ffmpegFound := true, spawnOk := true }

/-- The streamer right after a successful `start`. -/
def runningStreamer : Streamer := start initStreamer goodStartEnv

/-- A tick environment with the image present, the clock past the
keepalive interval, and a healthy pipe. -/
def exampleTickEnv : TickEnv :=
  { img := some exampleImg, now := 2, writeOk := true }

/-- Events that can occur during one session (no `start`): ticks must
observe a surface whose pixel sequence has the session's fixed length. -/
def sessionEvent (n : Nat) : Event → Prop
  | .start _ => False
  | .tick env => ∀ img, env.img = some img → img.pixels.length = n
  | .stop => True
  | .procExit => True

/-- A running streamer whose ffmpeg process has exited on its own. -/
def deadProcStreamer : Streamer :=
  { runningStreamer with proc := some { alive := false, stdinOpen := true } }

/-- A start environment whose image lookup fails. -/
def missingImgStartEnv : StartEnv :=
  { img := none, ffmpegFound := true, spawnOk := true }

/-- The spec's `isAlive()` check on the handle: the process was spawned
and has not exited. -/
def procAlive (st : Streamer) : Bool :=
  match st.proc with
  | some p => p.alive
  | none => false

/-- The state invariant maintained by every operation: an error implies
stopped; a handle is held exactly while running; and while running the
handle has an open stdin sink. -/
def StreamerInv (st : Streamer) : Prop :=
  (st.last_error ≠ "" → st.running = false)
  ∧ (st.proc ≠ none ↔ st.running = true)
  ∧ (st.running = true → ∃ p, st.proc = some p ∧ p.stdinOpen = true)

/-- The reachable world in which the encoder process exited on its own
right after a successful `start`, before any tick. -/
def c8World : World :=
  stepWorld (stepWorld initWorld (.start goodStartEnv)) .procExit

/-! ### Helper lemmas -/

theorem stop_running (st : Streamer) : (stop st).running = false := by
  unfold stop
  split
  · assumption
  · split <;> rfl

theorem stop_frames_sent (st : Streamer) : (stop st).frames_sent = st.frames_sent := by
  unfold stop
  split
  · rfl
  · split <;> rfl

theorem stop_last_error (st : Streamer) : (stop st).last_error = st.last_error := by
  unfold stop
  split
  · rfl
  · split <;> rfl

theorem stop_of_not_running (st : Streamer) (h : st.running = false) : stop st = st := by
  unfold stop
  rw [h]
  rfl

theorem stop_proc_of_running (st : Streamer) (h : st.running = true) :
    (stop st).proc = none := by
  unfold stop
  rw [h]
  simp only [Bool.true_eq_false, if_false]
  split
  · next heq => simpa using heq
  · rfl

theorem set_error_fields (st : Streamer) (msg : String) :
    (set_error st msg).last_error = msg ∧ (set_error st msg).running = st.running
    ∧ (set_error st msg).proc = st.proc
    ∧ (set_error st msg).frames_sent = st.frames_sent := by
  exact ⟨rfl, rfl, rfl, rfl⟩

/-- Scaling the clamp: the source clips `s*255` into `[0,255]`, which is
the same rational as clamping `s` into `[0,1]` and then scaling. -/
theorem clip_eq_clamp_mul (s : ℚ) :
    min (max (s * 255) 0) 255 = min (max s 0) 1 * 255 := by
  rw [min_mul_of_nonneg _ _ (by norm_num : (0:ℚ) ≤ 255),
    max_mul_of_nonneg _ _ (by norm_num : (0:ℚ) ≤ 255)]
  norm_num

theorem quantizeSample_eq_clamp01 (s : ℚ) :
    quantizeSample s = (Int.floor (min (max s 0) 1 * 255)).toNat := by
  unfold quantizeSample
  rw [clip_eq_clamp_mul]

/-- Every tick either writes nothing and leaves `frames_sent` unchanged,
or writes exactly the quantized frame of the tick's image and increments
`frames_sent` by one. -/
theorem stream_write_cases (st : Streamer) (env : TickEnv) :
    ((stream st env).written = [] ∧ (stream st env).st.frames_sent = st.frames_sent)
    ∨ (∃ img, env.img = some img
        ∧ (stream st env).written = frameOfPixels img.pixels
        ∧ (stream st env).st.frames_sent = st.frames_sent + 1) := by
  by_cases h1 : st.running = false
  · left
    simp [stream, h1]
  by_cases h2 : procExitedPoll st = true
  · left
    simp [stream, h1, h2, stop_frames_sent, set_error]
  rcases henv : env.img with _ | img
  · left
    simp [stream, h1, h2, henv, stop_frames_sent, set_error]
  by_cases h3 : shouldSend st img env.now = false
  · left
    simp [stream, h1, h2, henv, h3]
  rcases hp : st.proc with _ | p
  · left
    simp [stream, h1, h2, henv, h3, hp, stop_frames_sent, set_error]
  by_cases h4 : p.stdinOpen = false
  · left
    simp [stream, h1, h2, henv, h3, hp, h4, stop_frames_sent, set_error]
  by_cases h5 : env.writeOk = true
  · right
    refine ⟨img, rfl, ?_, ?_⟩ <;> simp [stream, h1, h2, henv, h3, hp, h4, h5]
  · left
    simp [stream, h1, h2, henv, h3, hp, h4, h5, stop_frames_sent, set_error]

theorem step_preserves_sink_inv (n : Nat) (w : World) (e : Event)
    (he : sessionEvent n e) (hw : w.sink.length = w.st.frames_sent * n) :
    (stepWorld w e).sink.length = (stepWorld w e).st.frames_sent * n := by
  cases e with
  | start env => exact absurd he id
  | stop => simpa [stepWorld, stop_frames_sent] using hw
  | tick env =>
    rcases stream_write_cases w.st env with ⟨hnil, hf⟩ | ⟨img, heq, hwr, hf⟩
    · simpa [stepWorld, hnil, hf] using hw
    · have hlen : (frameOfPixels img.pixels).length = n := by
        rw [frameOfPixels, List.length_map]
        exact he img heq
      simp only [stepWorld, List.length_append, hwr, hf, hlen, hw,
        Nat.add_mul, Nat.one_mul]
  | procExit => simpa [stepWorld] using hw

theorem runEvents_sink_inv (n : Nat) (evs : List Event) :
    ∀ (w : World), (∀ e ∈ evs, sessionEvent n e) →
      w.sink.length = w.st.frames_sent * n →
      (runEvents w evs).sink.length = (runEvents w evs).st.frames_sent * n := by
  induction evs with
  | nil => exact fun w _ hw => hw
  | cons e evs ih =>
    intro w hall hw
    have h1 := step_preserves_sink_inv n w e (hall e (by simp)) hw
    exact ih (stepWorld w e) (fun e' he' => hall e' (by simp [he'])) h1

end TextureStream

namespace TextureStream

/-! ### Claims -/

/-- C1 counterexample: the code truncates rather than rounds.  At sample
`0.5` the produced byte is `127` (the truncating `astype(np.uint8)` of
`127.5`), while `round(clamp(0.5,0,1)*255) = round(127.5) = 128`, so the
frame byte does not equal the rounded quantization. -/
theorem c1_byte_rounding_counterexample :
    quantizeSample (1/2) = 127 ∧ specQuantizeSample (1/2) = 128
    ∧ quantizeSample (1/2) ≠ specQuantizeSample (1/2) := by
  refine ⟨?_, ?_, ?_⟩
  · norm_num [quantizeSample]
    rfl
  · norm_num [specQuantizeSample, round_eq]
    rfl
  · norm_num [quantizeSample, specQuantizeSample, round_eq]
    decide

/-- C1 (amended): each byte of the frame is the truncated (floor), not
rounded, clamped quantization of the matching float sample:
`byte = floor(clamp(sample,0,1) * 255)`, pointwise over the whole pixel
sequence, and the frame has one byte per sample. -/
theorem c1_bytes_are_truncated_clamped_samples (px : List ℚ) :
    frameOfPixels px = px.map (fun s => (Int.floor (min (max s 0) 1 * 255)).toNat)
    ∧ (frameOfPixels px).length = px.length := by
  constructor
  · unfold frameOfPixels
    exact List.map_congr_left (fun a _ => quantizeSample_eq_clamp01 a)
  · exact List.length_map px quantizeSample

/-- C1 witness: the amended statement evaluated at the example pixel
list. -/
theorem c1_witness :
    frameOfPixels exampleImg.pixels
      = exampleImg.pixels.map (fun s => (Int.floor (min (max s 0) 1 * 255)).toNat)
    ∧ (frameOfPixels exampleImg.pixels).length = exampleImg.pixels.length :=
  c1_bytes_are_truncated_clamped_samples exampleImg.pixels

/-- C2: with the surface's pixel sequence at the fixed length `W*H*4`,
(i) every tick either appends exactly one block of `W*H*4` bytes to the
encoder's input and increments `frames_sent` by one, or appends nothing
and leaves `frames_sent` unchanged; and (ii) over any session (no
further `start`), the cumulative bytes written to the encoder's input
stay equal to `frames_sent * W * H * 4`. -/
theorem c2_frame_block_and_sink_invariant (W H : Nat) (hW : 0 < W) (hH : 0 < H) :
    (∀ (st : Streamer) (env : TickEnv) (img : Image),
        env.img = some img → img.pixels.length = W * H * 4 →
        ((stream st env).written.length = W * H * 4
          ∧ (stream st env).st.frames_sent = st.frames_sent + 1)
        ∨ ((stream st env).written = []
          ∧ (stream st env).st.frames_sent = st.frames_sent))
    ∧ (∀ (w : World) (evs : List Event),
        (∀ e ∈ evs, sessionEvent (W * H * 4) e) →
        w.sink.length = w.st.frames_sent * (W * H * 4) →
        (runEvents w evs).sink.length
          = (runEvents w evs).st.frames_sent * (W * H * 4)) := by
  constructor
  · intro st env img heq hlen
    rcases stream_write_cases st env with ⟨hnil, hf⟩ | ⟨img', heq', hwr, hf⟩
    · exact Or.inr ⟨hnil, hf⟩
    · have himg : img' = img := by
        rw [heq] at heq'
        exact (Option.some_inj.mp heq').symm
      subst himg
      refine Or.inl ⟨?_, hf⟩
      rw [hwr, frameOfPixels, List.length_map, hlen]
  · exact fun w evs hall hw => runEvents_sink_inv (W * H * 4) evs w hall hw

/-- C2 witness at a 1×1 surface right after a successful start, plus the
sink invariant at the initial world over the empty event list. -/
theorem c2_witness :
    (((stream runningStreamer exampleTickEnv).written.length = 1 * 1 * 4
      ∧ (stream runningStreamer exampleTickEnv).st.frames_sent
          = runningStreamer.frames_sent + 1)
    ∨ ((stream runningStreamer exampleTickEnv).written = []
      ∧ (stream runningStreamer exampleTickEnv).st.frames_sent
          = runningStreamer.frames_sent))
    ∧ (runEvents initWorld []).sink.length
        = (runEvents initWorld []).st.frames_sent * (1 * 1 * 4) :=
  ⟨(c2_frame_block_and_sink_invariant 1 1 (by decide) (by decide)).1
      runningStreamer exampleTickEnv exampleImg rfl rfl,
    (c2_frame_block_and_sink_invariant 1 1 (by decide) (by decide)).2
      initWorld [] (fun e he => absurd he (List.not_mem_nil e)) rfl⟩

/-- C3: on a tick in the running state with a live process, an open
stdin, a present surface and a healthy pipe, a frame is sent exactly
when the surface is dirty or more than `KEEPALIVE_SECONDS` elapsed since
the last send; otherwise the tick touches nothing, reads no pixels, and
asks to be rescheduled after exactly one frame period `1/STREAM_FPS`. -/
theorem c3_should_send_gate
    (st : Streamer) (env : TickEnv) (p : Proc) (img : Image)
    (hrun : st.running = true) (hproc : st.proc = some p)
    (halive : p.alive = true) (hstdin : p.stdinOpen = true)
    (himg : env.img = some img) (hwr : env.writeOk = true) :
    ((stream st env).st.frames_sent = st.frames_sent + 1
      ↔ (img.is_dirty = true ∨ env.now - st.last_send_time > KEEPALIVE_SECONDS))
    ∧ ((img.is_dirty = false ∧ ¬(env.now - st.last_send_time > KEEPALIVE_SECONDS)) →
        stream st env
          = { st := st, ret := some period, written := [], readPixels := false }
        ∧ period = 1 / (STREAM_FPS : ℚ)) := by
  have hpoll : procExitedPoll st = false := by
    simp [procExitedPoll, hproc, halive]
  by_cases hd : img.is_dirty = true
  · have hsend : shouldSend st img env.now = true := by
      simp [shouldSend, hd]
    constructor
    · simp [stream, hrun, hpoll, himg, hproc, hstdin, hwr, hsend, hd]
    · rintro ⟨hd', _⟩
      rw [hd] at hd'
      exact absurd hd' (by decide)
  · by_cases ht : env.now - st.last_send_time > KEEPALIVE_SECONDS
    · have hsend : shouldSend st img env.now = true := by
        simp [shouldSend, ht]
      constructor
      · simp [stream, hrun, hpoll, himg, hproc, hstdin, hwr, hsend, ht]
      · rintro ⟨_, ht'⟩
        exact absurd ht ht'
    · have hsend : shouldSend st img env.now = false := by
        simp [shouldSend, ht, hd]
      constructor
      · simp [stream, hrun, hpoll, himg, hsend, hd, ht]
      · exact fun _ => ⟨by simp [stream, hrun, hpoll, himg, hsend], rfl⟩

/-- C3 witness: a running streamer with a clean surface and the clock
past the keepalive interval. -/
theorem c3_witness :
    ((stream runningStreamer exampleTickEnv).st.frames_sent
        = runningStreamer.frames_sent + 1
      ↔ (exampleImg.is_dirty = true
          ∨ exampleTickEnv.now - runningStreamer.last_send_time > KEEPALIVE_SECONDS))
    ∧ ((exampleImg.is_dirty = false
        ∧ ¬(exampleTickEnv.now - runningStreamer.last_send_time > KEEPALIVE_SECONDS)) →
        stream runningStreamer exampleTickEnv
          = { st := runningStreamer, ret := some period, written := [],
              readPixels := false }
        ∧ period = 1 / (STREAM_FPS : ℚ)) :=
  c3_should_send_gate runningStreamer exampleTickEnv
    { alive := true, stdinOpen := true } exampleImg rfl rfl rfl rfl rfl rfl

/-- C4: a tick that finds the process already exited records the
process-exited error and stops without writing any bytes and without
reading pixels: the write is never attempted against a dead process. -/
theorem c4_no_write_to_dead_process
    (st : Streamer) (env : TickEnv) (p : Proc)
    (hrun : st.running = true) (hproc : st.proc = some p)
    (hdead : p.alive = false) :
    (stream st env).written = [] ∧ (stream st env).readPixels = false
    ∧ (stream st env).st.last_error = "ffmpeg exited unexpectedly."
    ∧ (stream st env).st.running = false
    ∧ (stream st env).ret = none := by
  have hpoll : procExitedPoll st = true := by
    simp [procExitedPoll, hproc, hdead]
  refine ⟨?_, ?_, ?_, ?_, ?_⟩ <;>
    simp [stream, hrun, hpoll, stop_last_error, stop_running, set_error]

/-- C4 witness: the dead-process streamer on an otherwise healthy tick. -/
theorem c4_witness :
    (stream deadProcStreamer exampleTickEnv).written = []
    ∧ (stream deadProcStreamer exampleTickEnv).readPixels = false
    ∧ (stream deadProcStreamer exampleTickEnv).st.last_error
        = "ffmpeg exited unexpectedly."
    ∧ (stream deadProcStreamer exampleTickEnv).st.running = false
    ∧ (stream deadProcStreamer exampleTickEnv).ret = none :=
  c4_no_write_to_dead_process deadProcStreamer exampleTickEnv
    { alive := false, stdinOpen := true } rfl rfl rfl

theorem append_ne_empty (s t : String) (h : s ≠ "") : s ++ t ≠ "" := by
  intro heq
  apply h
  have hlen := congrArg String.length heq
  rw [String.length_append] at hlen
  have h0 : "".length = 0 := rfl
  rw [h0] at hlen
  have : s.length = 0 := by omega
  exact String.ext (List.length_eq_zero.mp this)

theorem status_text_of_error (st : Streamer) (h : st.last_error ≠ "") :
    status_text st = "Error" := by
  simp [status_text, h]

/-- C5: `start` from idle on a missing surface, or on a surface with a
zero dimension, records a non-empty error (status `Error`), leaves
`frames_sent` at 0, spawns nothing (the process slot is untouched), and
stays not running. -/
theorem c5_start_invalid_surface (st : Streamer) (env : StartEnv)
    (hrun : st.running = false)
    (hbad : env.img = none
      ∨ ∃ img, env.img = some img ∧ (img.width = 0 ∨ img.height = 0)) :
    (start st env).last_error ≠ "" ∧ status_text (start st env) = "Error"
    ∧ (start st env).frames_sent = 0 ∧ (start st env).proc = st.proc
    ∧ (start st env).running = false := by
  have hne : (start st env).last_error ≠ ""
      ∧ (start st env).frames_sent = 0 ∧ (start st env).proc = st.proc
      ∧ (start st env).running = false := by
    rcases hbad with himg | ⟨img, himg, hwh⟩
    · have : start st env
          = set_error (resetSession st) ("Image not found: " ++ IMAGE_NAME) := by
        simp [start, hrun, startBody, himg]
      rw [this]
      exact ⟨(by decide : ("Image not found: " ++ IMAGE_NAME : String) ≠ ""),
        rfl, rfl, hrun⟩
    · have : start st env
          = set_error (resetSession st)
              ("Invalid image size: " ++ toString img.width ++ "x"
                ++ toString img.height) := by
        simp [start, hrun, startBody, himg, hwh]
      rw [this]
      refine ⟨?_, rfl, rfl, hrun⟩
      exact append_ne_empty _ _ (append_ne_empty _ _ (append_ne_empty _ _ (by decide)))
  exact ⟨hne.1, status_text_of_error _ hne.1, hne.2⟩

theorem inv_init : StreamerInv initStreamer := by
  simp [StreamerInv, initStreamer]

theorem inv_start (st : Streamer) (env : StartEnv) (ih : StreamerInv st) :
    StreamerInv (start st env) := by
  unfold start
  split
  · exact ih
  · next hrun =>
    have hrun' : st.running = false := by simpa using hrun
    have hproc : st.proc = none := by
      rcases st.proc.eq_none_or_eq_some with h | ⟨p, h⟩
      · exact h
      · exact absurd (ih.2.1.mp (by simp [h])) (by simp [hrun'])
    unfold startBody
    rcases env.img with _ | img
    · simp [StreamerInv, set_error, resetSession, hrun', hproc]
    · by_cases hwh : img.width = 0 ∨ img.height = 0
      · simp [StreamerInv, set_error, resetSession, hrun', hproc, hwh]
      · by_cases hff : FFMPEG_BIN = "ffmpeg" ∧ env.ffmpegFound = false
        · simp [StreamerInv, set_error, resetSession, hrun', hproc, hwh, hff]
        · by_cases hsp : env.spawnOk = false
          · simp [StreamerInv, set_error, resetSession, hrun', hproc, hwh, hff, hsp]
          · simp [StreamerInv, set_error, resetSession, hrun', hproc, hwh, hff, hsp]

theorem inv_stop (st : Streamer) (ih : StreamerInv st) : StreamerInv (stop st) := by
  unfold stop
  split
  · exact ih
  · split
    · next hp => simp [StreamerInv, hp]
    · simp [StreamerInv]

theorem inv_stop_set_error (st : Streamer) (msg : String)
    (hrun : st.running = true) : StreamerInv (stop (set_error st msg)) := by
  have h1 : (stop (set_error st msg)).running = false := stop_running _
  have h2 : (stop (set_error st msg)).proc = none :=
    stop_proc_of_running _ (by simpa [set_error] using hrun)
  exact ⟨fun _ => h1, by simp [h2, h1], fun h => absurd h (by simp [h1])⟩

theorem inv_stream (st : Streamer) (env : TickEnv) (ih : StreamerInv st) :
    StreamerInv (stream st env).st := by
  by_cases h1 : st.running = false
  · have h : (stream st env).st = st := by simp [stream, h1]
    rw [h]
    exact ih
  have hrun : st.running = true := by simpa using h1
  by_cases h2 : procExitedPoll st = true
  · have h : (stream st env).st
        = stop (set_error st "ffmpeg exited unexpectedly.") := by
      simp [stream, h1, h2]
    rw [h]
    exact inv_stop_set_error st _ hrun
  rcases henv : env.img with _ | img
  · have h : (stream st env).st
        = stop (set_error st ("Image missing: " ++ IMAGE_NAME)) := by
      simp [stream, h1, h2, henv]
    rw [h]
    exact inv_stop_set_error st _ hrun
  by_cases h3 : shouldSend st img env.now = false
  · have h : (stream st env).st = st := by simp [stream, h1, h2, henv, h3]
    rw [h]
    exact ih
  rcases hp : st.proc with _ | p
  · have h : (stream st env).st
        = stop (set_error st "ffmpeg process not available.") := by
      simp [stream, h1, h2, henv, h3, hp]
    rw [h]
    exact inv_stop_set_error st _ hrun
  by_cases h4 : p.stdinOpen = false
  · have h : (stream st env).st
        = stop (set_error st "ffmpeg process not available.") := by
      simp [stream, h1, h2, henv, h3, hp, h4]
    rw [h]
    exact inv_stop_set_error st _ hrun
  by_cases h5 : env.writeOk = true
  · have h : (stream st env).st
        = { st with last_send_time := env.now,
                    frames_sent := st.frames_sent + 1 } := by
      simp [stream, h1, h2, henv, h3, hp, h4, h5]
    rw [h]
    exact ⟨fun he => ih.1 he, ih.2.1, fun hr => ih.2.2 hr⟩
  · have h : (stream st env).st
        = stop (set_error st "Write failed: write raised") := by
      simp [stream, h1, h2, henv, h3, hp, h4, h5]
    rw [h]
    exact inv_stop_set_error st _ hrun

theorem inv_procExit (st : Streamer) (ih : StreamerInv st) :
    StreamerInv { st with proc := st.proc.map (fun p => { p with alive := false }) } := by
  refine ⟨fun he => ih.1 he, ?_, ?_⟩
  · rw [show ({ st with proc := st.proc.map (fun p => { p with alive := false }) } :
        Streamer).running = st.running from rfl]
    rw [← ih.2.1]
    rcases st.proc with _ | p <;> simp
  · intro hr
    rcases ih.2.2 hr with ⟨p, hp, hs⟩
    exact ⟨{ p with alive := false }, by simp [hp], hs⟩

theorem stepWorld_start_st (w : World) (env : StartEnv) :
    (stepWorld w (.start env)).st = start w.st env := by
  simp only [stepWorld]
  split <;> rfl

/-- Every reachable world satisfies the state invariant. -/
theorem reachable_inv (w : World) (hw : Reachable w) : StreamerInv w.st := by
  induction hw with
  | init => exact inv_init
  | step w e hr ih =>
    cases e with
    | start env =>
      rw [stepWorld_start_st]
      exact inv_start w.st env ih
    | stop => exact inv_stop w.st ih
    | tick env => exact inv_stream w.st env ih
    | procExit => exact inv_procExit w.st ih

/-- A successful `start` from idle installs the freshly spawned handle,
independent of whatever handle field the state held before. -/
theorem start_success_fresh_proc (st : Streamer) (env : StartEnv)
    (hrun : st.running = false) (hok : (start st env).running = true) :
    (start st env).proc = some { alive := true, stdinOpen := true } := by
  have hred : start st env = startBody (resetSession st) env := by
    simp [start, hrun]
  rw [hred] at hok ⊢
  unfold startBody at hok ⊢
  rcases henv : env.img with _ | img <;> rw [henv] at hok <;> dsimp only at hok ⊢
  · exact absurd hok (by simp [set_error, resetSession, hrun])
  · by_cases hwh : img.width = 0 ∨ img.height = 0
    · rw [if_pos hwh] at hok
      exact absurd hok (by simp [set_error, resetSession, hrun])
    · rw [if_neg hwh] at hok ⊢
      by_cases hff : FFMPEG_BIN = "ffmpeg" ∧ env.ffmpegFound = false
      · rw [if_pos hff] at hok
        exact absurd hok (by simp [set_error, resetSession, hrun])
      · rw [if_neg hff] at hok ⊢
        by_cases hsp : env.spawnOk = false
        · rw [if_pos hsp] at hok
          exact absurd hok (by simp [set_error, resetSession, hrun])
        · rw [if_neg hsp]

/-- C6: `start` while running and `stop` while stopped are no-ops, and
`stop` twice from the streaming state (empty error) or before any start
raises nothing and leaves the status `Stopped`. -/
theorem c6_start_stop_idempotent (st : Streamer) (env : StartEnv) :
    (st.running = true → start st env = st)
    ∧ (st.running = false → stop st = st)
    ∧ (st.running = true → st.last_error = "" →
        stop (stop st) = stop st ∧ status_text (stop (stop st)) = "Stopped")
    ∧ stop initStreamer = initStreamer
    ∧ status_text initStreamer = "Stopped" := by
  refine ⟨?_, ?_, ?_, ?_, ?_⟩
  · intro h
    simp [start, h]
  · exact stop_of_not_running st
  · intro _ herr
    have h2 : stop (stop st) = stop st := stop_of_not_running _ (stop_running st)
    refine ⟨h2, ?_⟩
    rw [h2]
    have he : (stop st).last_error = "" := by rw [stop_last_error]; exact herr
    simp [status_text, he, stop_running]
  · exact stop_of_not_running initStreamer rfl
  · rfl

/-- C6 witness: `start` on the already-running streamer, `stop` from the
initial state, and a double `stop` from the streaming state. -/
theorem c6_witness :
    start runningStreamer goodStartEnv = runningStreamer
    ∧ stop initStreamer = initStreamer
    ∧ stop (stop runningStreamer) = stop runningStreamer
    ∧ status_text (stop (stop runningStreamer)) = "Stopped" :=
  ⟨(c6_start_stop_idempotent runningStreamer goodStartEnv).1 rfl,
    (c6_start_stop_idempotent initStreamer goodStartEnv).2.2.2.1,
    ((c6_start_stop_idempotent runningStreamer goodStartEnv).2.2.1 rfl rfl).1,
    ((c6_start_stop_idempotent runningStreamer goodStartEnv).2.2.1 rfl rfl).2⟩

/-- C7: in every reachable world a non-empty `last_error` implies the
pipeline is stopped: every error transition also clears `running`. -/
theorem c7_error_implies_stopped (w : World) (hw : Reachable w)
    (herr : w.st.last_error ≠ "") : w.st.running = false :=
  (reachable_inv w hw).1 herr

/-- C7 witness: the reachable world produced by a `start` whose image
lookup fails carries an error and is stopped. -/
theorem c7_witness :
    (stepWorld initWorld (Event.start missingImgStartEnv)).st.running = false :=
  c7_error_implies_stopped (stepWorld initWorld (Event.start missingImgStartEnv))
    (Reachable.step initWorld (Event.start missingImgStartEnv) Reachable.init)
    (by decide)

/-- C8 counterexample: between ticks the external process can exit on
its own while `running` is still `true`, so `running = true` does not
imply the handle is in state Running.  `c8World` is reachable, running,
and its process has exited. -/
theorem c8_counterexample :
    Reachable c8World ∧ c8World.st.running = true
    ∧ procAlive c8World.st = false :=
  ⟨Reachable.step _ Event.procExit
      (Reachable.step initWorld (Event.start goodStartEnv) Reachable.init),
    rfl, rfl⟩

/-- C8 (amended): while `running = true` a handle with an open sink is
always present, but the process may have exited on its own; the
invariant is restored at the next tick, which stops the pipeline
(without writing) whenever the process has exited. -/
theorem c8_running_implies_handle_until_tick (w : World) (hw : Reachable w) :
    (w.st.running = true → ∃ p, w.st.proc = some p ∧ p.stdinOpen = true)
    ∧ (∀ (env : TickEnv) (p : Proc), w.st.proc = some p → p.alive = false →
        (stream w.st env).st.running = false ∧ (stream w.st env).written = []) := by
  refine ⟨(reachable_inv w hw).2.2, ?_⟩
  intro env p hp hdead
  by_cases h1 : w.st.running = false
  · constructor
    · have h : (stream w.st env).st = w.st := by simp [stream, h1]
      rw [h]
      exact h1
    · simp [stream, h1]
  · have hpoll : procExitedPoll w.st = true := by
      simp [procExitedPoll, hp, hdead]
    constructor
    · have h : (stream w.st env).st
          = stop (set_error w.st "ffmpeg exited unexpectedly.") := by
        simp [stream, h1, hpoll]
      rw [h]
      exact stop_running _
    · simp [stream, h1, hpoll]

/-- C8 witness: after a clean start the handle is present with an open
sink; and in the reachable world whose process has exited, the next tick
stops without writing. -/
theorem c8_witness :
    (∃ p, (stepWorld initWorld (Event.start goodStartEnv)).st.proc = some p
      ∧ p.stdinOpen = true)
    ∧ ((stream c8World.st exampleTickEnv).st.running = false
      ∧ (stream c8World.st exampleTickEnv).written = []) :=
  ⟨(c8_running_implies_handle_until_tick
      (stepWorld initWorld (Event.start goodStartEnv))
      (Reachable.step initWorld (Event.start goodStartEnv) Reachable.init)).1 rfl,
    (c8_running_implies_handle_until_tick c8World
      (Reachable.step _ Event.procExit
        (Reachable.step initWorld (Event.start goodStartEnv) Reachable.init))).2
      exampleTickEnv { alive := false, stdinOpen := true } rfl rfl⟩

/-- C9: a successful `start` resets `last_send_time` to 0 and
`frames_sent` to 0, so the first tick — dirty surface or not — sends a
frame whenever the wall clock exceeds `KEEPALIVE_SECONDS` (and the
process and pipe are healthy). -/
theorem c9_first_tick_sends
    (st : Streamer) (env : StartEnv) (img img2 : Image) (env2 : TickEnv)
    (hrun : st.running = false) (himg : env.img = some img)
    (hW : img.width ≠ 0) (hH : img.height ≠ 0)
    (hff : env.ffmpegFound = true) (hsp : env.spawnOk = true)
    (himg2 : env2.img = some img2) (hwr : env2.writeOk = true)
    (hnow : env2.now > KEEPALIVE_SECONDS) :
    (start st env).last_send_time = 0
    ∧ (start st env).frames_sent = 0
    ∧ (stream (start st env) env2).st.frames_sent = 1
    ∧ (stream (start st env) env2).written = frameOfPixels img2.pixels := by
  have hstart : start st env
      = { proc := some { alive := true, stdinOpen := true }, running := true,
          last_error := "", last_send_time := 0, frames_sent := 0 } := by
    simp [start, hrun, startBody, himg, hW, hH, hff, hsp, resetSession]
  rw [hstart]
  have hsend : shouldSend
      { proc := some { alive := true, stdinOpen := true }, running := true,
        last_error := "", last_send_time := 0, frames_sent := 0 }
      img2 env2.now = true := by
    simp [shouldSend, sub_zero, hnow]
  refine ⟨rfl, rfl, ?_, ?_⟩ <;>
    simp [stream, procExitedPoll, himg2, hsend, hwr]

/-- C9 witness: start from the initial state on the 1×1 image, then tick
with a clean surface at time 2 > keepalive. -/
theorem c9_witness :
    (start initStreamer goodStartEnv).last_send_time = 0
    ∧ (start initStreamer goodStartEnv).frames_sent = 0
    ∧ (stream (start initStreamer goodStartEnv) exampleTickEnv).st.frames_sent = 1
    ∧ (stream (start initStreamer goodStartEnv) exampleTickEnv).written
        = frameOfPixels exampleImg.pixels :=
  c9_first_tick_sends initStreamer goodStartEnv exampleImg exampleImg
    exampleTickEnv rfl rfl (by decide) (by decide) rfl rfl rfl rfl one_lt_two

/-- C10: in every reachable world the handle field is non-null exactly
while `running = true`; moreover a successful `start` from idle installs
the freshly spawned handle, never a previous session's. -/
theorem c10_proc_iff_running (w : World) (hw : Reachable w) :
    (w.st.proc ≠ none ↔ w.st.running = true)
    ∧ (∀ env : StartEnv, w.st.running = false →
        (start w.st env).running = true →
        (start w.st env).proc = some { alive := true, stdinOpen := true }) :=
  ⟨(reachable_inv w hw).2.1,
    fun env hrun hok => start_success_fresh_proc w.st env hrun hok⟩

/-- C10 witness: at the initial world the handle is absent and not
running; a successful start installs the fresh live handle. -/
theorem c10_witness :
    (initWorld.st.proc ≠ none ↔ initWorld.st.running = true)
    ∧ (start initWorld.st goodStartEnv).proc
        = some { alive := true, stdinOpen := true } :=
  ⟨(c10_proc_iff_running initWorld Reachable.init).1,
    (c10_proc_iff_running initWorld Reachable.init).2 goodStartEnv rfl rfl⟩

/-- C5 witness: starting from the initial state with the image missing. -/
theorem c5_witness :
    (start initStreamer missingImgStartEnv).last_error ≠ ""
    ∧ status_text (start initStreamer missingImgStartEnv) = "Error"
    ∧ (start initStreamer missingImgStartEnv).frames_sent = 0
    ∧ (start initStreamer missingImgStartEnv).proc = initStreamer.proc
    ∧ (start initStreamer missingImgStartEnv).running = false :=
  c5_start_invalid_surface initStreamer missingImgStartEnv rfl (Or.inl rfl)

end TextureStream

-- scratch tests
example : TextureStream.quantizeSample (1/2) = 127 := by
  norm_num [TextureStream.quantizeSample] <;> rfl
example : TextureStream.specQuantizeSample (1/2) = 128 := by
  norm_num [TextureStream.specQuantizeSample, round_eq] <;> rfl
example : TextureStream.quantizeSample 1 = 255 := by
  norm_num [TextureStream.quantizeSample] <;> rfl
example : TextureStream.quantizeSample (-1) = 0 := by
  norm_num [TextureStream.quantizeSample] <;> rfl
example : TextureStream.quantizeSample 2 = 255 := by
  norm_num [TextureStream.quantizeSample] <;> rfl
